import Mathlib

/-!
Verification of the `ai-content-service` repository.

The development shallowly embeds the Python scripts
`scripts/generate_calculation_examples.py`, `scripts/ai_code_review.py` and
`scripts/huggingface_ai_helper.py` into Lean.  Numeric values are modelled
exactly over `ℚ`; Python's `round(x, n)` (round-half-to-even on the decimal
scaled value) is modelled by `pyRound`.  External effects (the HTTP inference
endpoint, the Python `ast` parser, the filesystem, the JSON codec of the
standard library) are modelled as explicit oracle arguments, so that every
embedded operation is a total Lean function of its inputs and of the oracle
outcome.
-/

/-- Python's `round` applied to an exact rational scaled to an integer:
round half to even (banker's rounding). -/
def rhe (q : ℚ) : ℤ :=
  if q - ⌊q⌋ < 1/2 then ⌊q⌋
  else if 1/2 < q - ⌊q⌋ then ⌊q⌋ + 1
  else if ⌊q⌋ % 2 = 0 then ⌊q⌋ else ⌊q⌋ + 1

/-- Python's `round(q, n)`: round to `n` decimal places, ties to even. -/
def pyRound (q : ℚ) (n : ℕ) : ℚ := (rhe (q * 10 ^ n) : ℚ) / 10 ^ n

/-- The building-parameter record of `generate_calculation_examples.py`:
a flat literal record with the eight keys used by the script. -/
structure BuildingParams where
  name : String
  building_type : String
  height : ℚ
  width : ℚ
  depth : ℚ
  terrain_category : String
  location : String
  code_standard : String
deriving Repr, DecidableEq

/-- The `units` sub-record of a calculation result. -/
structure ResultUnits where
  pressure : String
  load : String
  area : String
deriving Repr, DecidableEq

/-- The result record returned by `simulate_calculation_results`. -/
structure CalculationResult where
  basic_wind_pressure : ℚ
  height_factor : ℚ
  shape_factor : ℚ
  wind_pressure : ℚ
  building_area : ℚ
  total_wind_load : ℚ
  units : ResultUnits
deriving Repr, DecidableEq

/-- `create_example_calculations` of `generate_calculation_examples.py`:
the three hardcoded building records. -/
def create_example_calculations : List BuildingParams :=
  [ { name := "高层办公楼风荷载计算", building_type := "办公楼",
      height := 150, width := 40, depth := 30,
      terrain_category := "C", location := "上海", code_standard := "GB50009" },
    { name := "住宅楼风荷载计算", building_type := "住宅",
      height := 80, width := 25, depth := 20,
      terrain_category := "B", location := "北京", code_standard := "GB50009" },
    { name := "工业厂房风荷载计算", building_type := "厂房",
      height := 20, width := 60, depth := 40,
      terrain_category := "A", location := "广州", code_standard := "GB50009" } ]

/-- `simulate_calculation_results` of `generate_calculation_examples.py`,
line for line: the terrain-category `if` chain chooses the height factor,
the basic wind pressure and the shape factor are literals, the wind pressure
is their product, the area is `width * height`, and each reported value is
rounded with Python's `round` to the number of decimals used in the source. -/
def simulate_calculation_results (building_params : BuildingParams) : CalculationResult :=
  let terrain := building_params.terrain_category
  let height_factor : ℚ :=
    if terrain = "A" then 1.0
    else if terrain = "B" then 1.2
    else if terrain = "C" then 1.4
    else 1.6
  let basic_wind_pressure : ℚ := 0.5 * 1.25 * 30 ^ 2 / 1000
  let shape_factor : ℚ := 1.3
  let wind_pressure := basic_wind_pressure * height_factor * shape_factor
  let area := building_params.width * building_params.height
  let total_wind_load := wind_pressure * area
  { basic_wind_pressure := pyRound basic_wind_pressure 3
    height_factor := pyRound height_factor 2
    shape_factor := shape_factor
    wind_pressure := pyRound wind_pressure 3
    building_area := pyRound area 1
    total_wind_load := pyRound total_wind_load 1
    units := { pressure := "kN/m²", load := "kN", area := "m²" } }

/-- C2: the height factor computed by `simulate_calculation_results` is exactly
1.0 for terrain category "A", 1.2 for "B", 1.4 for "C", and 1.6 for every
other value of the terrain-category string. -/
theorem simulate_height_factor_cases (p : BuildingParams) :
    (p.terrain_category = "A" → (simulate_calculation_results p).height_factor = 1.0) ∧
    (p.terrain_category = "B" → (simulate_calculation_results p).height_factor = 1.2) ∧
    (p.terrain_category = "C" → (simulate_calculation_results p).height_factor = 1.4) ∧
    (p.terrain_category ≠ "A" → p.terrain_category ≠ "B" → p.terrain_category ≠ "C" →
      (simulate_calculation_results p).height_factor = 1.6) := by
  refine ⟨fun h => ?_, fun h => ?_, fun h => ?_, fun h1 h2 h3 => ?_⟩
  · simp +decide only [simulate_calculation_results, h]
    norm_num [pyRound, rhe]
  · simp +decide only [simulate_calculation_results, h]
    norm_num [pyRound, rhe]
  · simp +decide only [simulate_calculation_results, h]
    norm_num [pyRound, rhe]
  · simp only [simulate_calculation_results, if_neg h1, if_neg h2, if_neg h3]
    norm_num [pyRound, rhe]

/-- Witness for C2: the height factor at a concrete terrain-"A" record and at a
concrete terrain-"D" record. -/
theorem simulate_height_factor_cases_witness :
    (simulate_calculation_results
      ⟨"工业厂房风荷载计算", "厂房", 20, 60, 40, "A", "广州", "GB50009"⟩).height_factor = 1.0 ∧
    (simulate_calculation_results
      ⟨"某建筑", "办公楼", 50, 30, 20, "D", "深圳", "GB50009"⟩).height_factor = 1.6 :=
  ⟨(simulate_height_factor_cases _).1 rfl,
   (simulate_height_factor_cases _).2.2.2 (by decide) (by decide) (by decide)⟩

/-- C10: `simulate_calculation_results` reads only the `height`, `width` and
`terrain_category` fields: two parameter records agreeing on those three
fields yield identical results. -/
theorem simulate_depends_only_on_height_width_terrain (p q : BuildingParams)
    (hh : p.height = q.height) (hw : p.width = q.width)
    (ht : p.terrain_category = q.terrain_category) :
    simulate_calculation_results p = simulate_calculation_results q := by
  simp only [simulate_calculation_results, hh, hw, ht]

/-- Witness for C10: two records agreeing on height, width and terrain but
differing on name, building type, depth, location and code standard. -/
theorem simulate_depends_only_witness :
    simulate_calculation_results ⟨"甲", "办公楼", 150, 40, 30, "C", "上海", "GB50009"⟩ =
      simulate_calculation_results ⟨"乙", "厂房", 150, 40, 99, "C", "广州", "其他规范"⟩ :=
  simulate_depends_only_on_height_width_terrain _ _ rfl rfl rfl

/-- Counterexample for C1: on the 150 m / 40 m / terrain-"C" example record,
the reported unit wind pressure is 1.024 kN/m² (the 3-decimal rounding of
0.5×1.25×30²/1000 × 1.4 × 1.3 = 1.02375), not approximately 0.410 as the
spec's parenthetical asserts. -/
theorem simulate_ex1_wind_pressure_not_0410 :
    (simulate_calculation_results
      ⟨"高层办公楼风荷载计算", "办公楼", 150, 40, 30, "C", "上海", "GB50009"⟩).wind_pressure
      = 1.024 ∧ (1.024 : ℚ) ≠ 0.410 := by
  constructor
  · simp +decide only [simulate_calculation_results]
    norm_num [pyRound, rhe]
  · norm_num

/-- C1 (amended): for any record with height 150, width 40 and terrain "C",
the reported unit wind pressure is the 3-decimal rounding of
0.5×1.25×30²/1000 × 1.4 × 1.3, namely 1.024 kN/m², and the reported total
wind load is the 1-decimal rounding of that (unrounded) pressure times the
area 40×150, namely 6142.5 kN. -/
theorem simulate_150_40_C_results (p : BuildingParams)
    (hh : p.height = 150) (hw : p.width = 40) (ht : p.terrain_category = "C") :
    (simulate_calculation_results p).wind_pressure
        = pyRound (0.5 * 1.25 * 30 ^ 2 / 1000 * 1.4 * 1.3) 3 ∧
    (simulate_calculation_results p).wind_pressure = 1.024 ∧
    (simulate_calculation_results p).total_wind_load
        = pyRound (0.5 * 1.25 * 30 ^ 2 / 1000 * 1.4 * 1.3 * (40 * 150)) 1 ∧
    (simulate_calculation_results p).total_wind_load = 6142.5 := by
  simp +decide only [simulate_calculation_results, hh, hw, ht]
  norm_num [pyRound, rhe]

/-- Witness for C1 (amended): instantiated at the first hardcoded example. -/
theorem simulate_150_40_C_results_witness :
    (simulate_calculation_results
      ⟨"高层办公楼风荷载计算", "办公楼", 150, 40, 30, "C", "上海", "GB50009"⟩).wind_pressure = 1.024 ∧
    (simulate_calculation_results
      ⟨"高层办公楼风荷载计算", "办公楼", 150, 40, 30, "C", "上海", "GB50009"⟩).total_wind_load = 6142.5 :=
  ⟨(simulate_150_40_C_results _ rfl rfl rfl).2.1,
   (simulate_150_40_C_results _ rfl rfl rfl).2.2.2⟩

/-- JSON values, as produced by parsing an HTTP response body or written by
the standard-library JSON codec.  Numbers are modelled exactly over `ℚ`. -/
inductive JValue where
  | jnull : JValue
  | jbool : Bool → JValue
  | jnum : ℚ → JValue
  | jstr : String → JValue
  | jarr : List JValue → JValue
  | jobj : List (String × JValue) → JValue

/-- Key lookup in a JSON object's field list (Python `dict` access). -/
def jlookup (fields : List (String × JValue)) (key : String) : Option JValue :=
  (fields.find? (fun kv => kv.1 == key)).map (fun kv => kv.2)

/-- Python `dict.update`: keys of `upd` replace those of `base` in place,
fresh keys are appended. -/
def dictUpdate (base upd : List (String × JValue)) : List (String × JValue) :=
  base.map (fun kv => (kv.1, (jlookup upd kv.1).getD kv.2)) ++
    upd.filter (fun kv => (jlookup base kv.1).isNone)

/-- The keyword-override set accepted by `HuggingFaceAI.query`: each
recognized generation/option override, plus an optional extra `parameters`
dictionary merged into the defaults, exactly the keys read by the source. -/
structure QueryKwargs where
  max_length : Option ℚ := none
  temperature : Option ℚ := none
  top_p : Option ℚ := none
  do_sample : Option Bool := none
  return_full_text : Option Bool := none
  wait_for_model : Option Bool := none
  use_cache : Option Bool := none
  parameters : Option (List (String × JValue)) := none

/-- The `HuggingFaceAI` client state of `huggingface_ai_helper.py`:
an API token and a model identifier. -/
structure HuggingFaceAI where
  api_token : String
  model : String

/-- The endpoint URL held by the client. -/
def HuggingFaceAI.api_url (ai : HuggingFaceAI) : String :=
  "https://api-inference.huggingface.co/models/" ++ ai.model

/-- The request body assembled by `HuggingFaceAI.query`: defaults
(`max_length` 500, `temperature` 0.7, `top_p` 0.9, `do_sample` true,
`return_full_text` false, `wait_for_model` true, `use_cache` true)
overridden by the caller's keywords, with any extra `parameters` dictionary
merged in via `dict.update`. -/
def buildQueryBody (prompt : String) (kw : QueryKwargs) : JValue :=
  let baseParams : List (String × JValue) :=
    [("max_length", .jnum (kw.max_length.getD 500)),
     ("temperature", .jnum (kw.temperature.getD 0.7)),
     ("top_p", .jnum (kw.top_p.getD 0.9)),
     ("do_sample", .jbool (kw.do_sample.getD true)),
     ("return_full_text", .jbool (kw.return_full_text.getD false))]
  .jobj [("inputs", .jstr prompt),
         ("parameters", .jobj (dictUpdate baseParams (kw.parameters.getD []))),
         ("options", .jobj [("wait_for_model", .jbool (kw.wait_for_model.getD true)),
                            ("use_cache", .jbool (kw.use_cache.getD true))])]

/-- Outcome of the one synchronous HTTP POST issued by `query`: either a
response that passed `raise_for_status` and parsed as JSON, or a
`requests.exceptions.RequestException` (network failure, HTTP error status,
or JSON decode failure) carrying its description string. -/
inductive HTTPOutcome where
  | success : JValue → HTTPOutcome
  | requestFailure : String → HTTPOutcome

/-- `HuggingFaceAI.query`: builds the request body, issues one POST (the
network is the oracle `net`, a function of the URL and the request body),
returns the parsed JSON body on success and `{"error": str(e)}` when the
request raised a `RequestException`. -/
def HuggingFaceAI.query (ai : HuggingFaceAI) (prompt : String) (kw : QueryKwargs)
    (net : String → JValue → HTTPOutcome) : JValue :=
  match net ai.api_url (buildQueryBody prompt kw) with
  | .success body => body
  | .requestFailure e => .jobj [("error", .jstr e)]

/-- C3: for every prompt, every keyword-override set and every network
outcome, `HuggingFaceAI.query` returns a value (it is a total function):
the parsed JSON body of the response when the call succeeds, and otherwise
an object whose `"error"` key holds the failure description. -/
theorem query_never_raises (ai : HuggingFaceAI) (prompt : String) (kw : QueryKwargs)
    (net : String → JValue → HTTPOutcome) :
    (∃ body, net ai.api_url (buildQueryBody prompt kw) = .success body ∧
      ai.query prompt kw net = body) ∨
    (∃ e, net ai.api_url (buildQueryBody prompt kw) = .requestFailure e ∧
      ai.query prompt kw net = .jobj [("error", .jstr e)] ∧
      jlookup [("error", JValue.jstr e)] "error" = some (.jstr e)) := by
  cases h : net ai.api_url (buildQueryBody prompt kw) with
  | success body => exact Or.inl ⟨body, rfl, by simp [HuggingFaceAI.query, h]⟩
  | requestFailure e => exact Or.inr ⟨e, rfl, by simp [HuggingFaceAI.query, h], rfl⟩

/-- The JSON encoding of a building-parameter record, as written by
`json.dump` in `save_report` (the standard-library codec is modelled as the
identity on the JSON tree). -/
def buildingParamsToJson (p : BuildingParams) : JValue :=
  .jobj [("name", .jstr p.name), ("building_type", .jstr p.building_type),
         ("height", .jnum p.height), ("width", .jnum p.width), ("depth", .jnum p.depth),
         ("terrain_category", .jstr p.terrain_category), ("location", .jstr p.location),
         ("code_standard", .jstr p.code_standard)]

/-- The JSON encoding of a calculation-result record, as written by
`json.dump` in `save_report`. -/
def calculationResultToJson (r : CalculationResult) : JValue :=
  .jobj [("basic_wind_pressure", .jnum r.basic_wind_pressure),
         ("height_factor", .jnum r.height_factor),
         ("shape_factor", .jnum r.shape_factor),
         ("wind_pressure", .jnum r.wind_pressure),
         ("building_area", .jnum r.building_area),
         ("total_wind_load", .jnum r.total_wind_load),
         ("units", .jobj [("pressure", .jstr r.units.pressure),
                          ("load", .jstr r.units.load),
                          ("area", .jstr r.units.area)])]

/-- Reading a string field back from a reloaded JSON object. -/
def asStr : Option JValue → Option String
  | some (.jstr s) => some s
  | _ => none

/-- Reading a numeric field back from a reloaded JSON object. -/
def asNum : Option JValue → Option ℚ
  | some (.jnum q) => some q
  | _ => none

/-- Decoding a building-parameter record from a reloaded JSON value. -/
def buildingParamsOfJson : JValue → Option BuildingParams
  | .jobj fs => do
      let name ← asStr (jlookup fs "name")
      let building_type ← asStr (jlookup fs "building_type")
      let height ← asNum (jlookup fs "height")
      let width ← asNum (jlookup fs "width")
      let depth ← asNum (jlookup fs "depth")
      let terrain_category ← asStr (jlookup fs "terrain_category")
      let location ← asStr (jlookup fs "location")
      let code_standard ← asStr (jlookup fs "code_standard")
      pure ⟨name, building_type, height, width, depth, terrain_category,
            location, code_standard⟩
  | _ => none

/-- Decoding a calculation-result record from a reloaded JSON value. -/
def calculationResultOfJson : JValue → Option CalculationResult
  | .jobj fs => do
      let basic ← asNum (jlookup fs "basic_wind_pressure")
      let hf ← asNum (jlookup fs "height_factor")
      let sf ← asNum (jlookup fs "shape_factor")
      let wp ← asNum (jlookup fs "wind_pressure")
      let ba ← asNum (jlookup fs "building_area")
      let tl ← asNum (jlookup fs "total_wind_load")
      match jlookup fs "units" with
      | some (.jobj us) => do
          let up ← asStr (jlookup us "pressure")
          let ul ← asStr (jlookup us "load")
          let ua ← asStr (jlookup us "area")
          pure ⟨basic, hf, sf, wp, ba, tl, ⟨up, ul, ua⟩⟩
      | _ => none
  | _ => none

/-- The markdown report rendered by `generate_text_report` of
`generate_calculation_examples.py`: the literal template with the parameter
and result fields interpolated (rationals rendered by `toString`). -/
def generate_text_report (building_params : BuildingParams)
    (results : CalculationResult) : String :=
  "# " ++ building_params.name ++ " - 风荷载计算报告\n\n" ++
  "## 项目信息\n" ++
  "- **建筑类型**: " ++ building_params.building_type ++ "\n" ++
  "- **建筑高度**: " ++ toString building_params.height ++ " 米\n" ++
  "- **建筑尺寸**: " ++ toString building_params.width ++ "m × " ++
    toString building_params.depth ++ "m\n" ++
  "- **地面粗糙度**: " ++ building_params.terrain_category ++ "类\n" ++
  "- **地点**: " ++ building_params.location ++ "\n" ++
  "- **使用规范**: " ++ building_params.code_standard ++ "\n\n" ++
  "## 计算结果\n" ++
  "| 计算项目 | 数值 | 单位 |\n" ++
  "|----------|------|------|\n" ++
  "| 基本风压 | " ++ toString results.basic_wind_pressure ++ " | " ++
    results.units.pressure ++ " |\n" ++
  "| 高度系数 | " ++ toString results.height_factor ++ " | - |\n" ++
  "| 体型系数 | " ++ toString results.shape_factor ++ " | - |\n" ++
  "| 计算风压 | " ++ toString results.wind_pressure ++ " | " ++
    results.units.pressure ++ " |\n" ++
  "| 建筑受风面积 | " ++ toString results.building_area ++ " | " ++
    results.units.area ++ " |\n" ++
  "| **总风荷载** | **" ++ toString results.total_wind_load ++ "** | **" ++
    results.units.load ++ "** |\n\n" ++
  "## 计算说明\n" ++
  "1. 基本风压计算公式: q = 0.5 × ρ × v²\n" ++
  "   - ρ (空气密度) = 1.25 kg/m³\n" ++
  "   - v (基本风速) = 30 m/s\n\n" ++
  "2. 高度系数根据地面粗糙度类别确定:\n" ++
  "   - A类地形: 1.0\n   - B类地形: 1.2  \n   - C类地形: 1.4\n   - D类地形: 1.6\n\n" ++
  "3. 体型系数取常见值: 1.3\n\n4. 总风荷载 = 风压 × 受风面积\n\n" ++
  "## 工程建议\n" ++
  "- 建议进行详细风洞试验验证\n- 考虑风振效应和动力响应\n" ++
  "- 按照规范进行荷载组合\n- 确保结构安全系数满足要求\n\n" ++
  "> 报告生成时间: 2026年2月27日\n> 注: 此为简化计算示例，实际工程应进行详细计算。\n"

/-- The JSON object written by `save_report` to the per-example data file:
the building parameters, the result fields and a generation timestamp. -/
def save_report_data (results_data : CalculationResult)
    (building_params : BuildingParams) (generated_at : ℚ) : JValue :=
  .jobj [("building_params", buildingParamsToJson building_params),
         ("results", calculationResultToJson results_data),
         ("generated_at", .jnum generated_at)]

/-- Reloading the two data fields from the per-example JSON data file. -/
def reload_report_data (j : JValue) : Option (BuildingParams × CalculationResult) :=
  match j with
  | .jobj fs => do
      let p ← (jlookup fs "building_params").bind buildingParamsOfJson
      let r ← (jlookup fs "results").bind calculationResultOfJson
      pure (p, r)
  | _ => none

/-- C9: write-then-read round-trip: for every run, reloading the per-example
JSON data file written by `save_report` yields exactly the building
parameters and result fields that were used to render the markdown report of
the same run, so the reloaded data re-renders the identical report. -/
theorem save_report_roundtrip (p : BuildingParams) (r : CalculationResult) (t : ℚ) :
    reload_report_data (save_report_data r p t) = some (p, r) ∧
    ∀ p' r', reload_report_data (save_report_data r p t) = some (p', r') →
      generate_text_report p' r' = generate_text_report p r := by
  have e : reload_report_data (save_report_data r p t) = some (p, r) := rfl
  refine ⟨e, fun p' r' h => ?_⟩
  have h' : (p, r) = (p', r') := Option.some.inj (e.symm.trans h)
  rw [Prod.ext_iff] at h'
  simp only [] at h'
  rw [← h'.1, ← h'.2]

/-- Python source-line boundary characters recognized by `str.splitlines`. -/
def isPyLineBreak (c : Char) : Bool :=
  c = '\n' || c = '\r' || c = '\x0b' || c = '\x0c' ||
  c = '\x1c' || c = '\x1d' || c = '\x1e' || c = '\x85' ||
  c = '\u2028' || c = '\u2029'

/-- Counting loop for `len(content.splitlines())`: `inLine` records whether a
segment has been started but not yet terminated; `"\r\n"` is one boundary. -/
def splitlinesAux : List Char → Bool → ℕ
  | [], inLine => if inLine then 1 else 0
  | '\r' :: '\n' :: rest, _ => 1 + splitlinesAux rest false
  | c :: rest, _ =>
      if isPyLineBreak c then 1 + splitlinesAux rest false
      else splitlinesAux rest true

/-- `len(content.splitlines())`: the number of source lines of a text. -/
def pySplitlinesCount (content : String) : ℕ := splitlinesAux content.data false

/-- Python `ast` nodes, to the fidelity used by `analyze_code_structure`:
the node kinds the script discriminates (`FunctionDef`, `ClassDef`, `Import`,
`ImportFrom`), async function definitions (a distinct node type, not matched
by `isinstance(node, ast.FunctionDef)`), and every other node kind collapsed
to `other` with its child statements.  `importStmt` carries the alias names
of a plain `import`; `importFrom` carries the optional module and the
imported alias names. -/
inductive PyNode where
  | functionDef : String → ℕ → ℕ → Option String → List PyNode → PyNode
  | asyncFunctionDef : String → ℕ → ℕ → Option String → List PyNode → PyNode
  | classDef : String → ℕ → Option String → List PyNode → PyNode
  | importStmt : List String → PyNode
  | importFrom : Option String → List String → PyNode
  | other : List PyNode → PyNode

/-- The child nodes of an AST node. -/
def PyNode.children : PyNode → List PyNode
  | .functionDef _ _ _ _ b => b
  | .asyncFunctionDef _ _ _ _ b => b
  | .classDef _ _ _ b => b
  | .importStmt _ => []
  | .importFrom _ _ => []
  | .other b => b

mutual
/-- Total number of nodes of a subtree (termination measure for the walk). -/
def PyNode.tsize : PyNode → ℕ
  | .functionDef _ _ _ _ b => 1 + tsizeList b
  | .asyncFunctionDef _ _ _ _ b => 1 + tsizeList b
  | .classDef _ _ _ b => 1 + tsizeList b
  | .importStmt _ => 1
  | .importFrom _ _ => 1
  | .other b => 1 + tsizeList b

/-- Total number of nodes of a forest. -/
def tsizeList : List PyNode → ℕ
  | [] => 0
  | n :: l => n.tsize + tsizeList l
end

theorem tsizeList_append (a b : List PyNode) :
    tsizeList (a ++ b) = tsizeList a + tsizeList b := by
  induction a with
  | nil => simp [tsizeList]
  | cons n l ih => simp [tsizeList, ih]; ring

theorem children_tsize_lt (n : PyNode) : tsizeList n.children < n.tsize := by
  cases n <;> simp [PyNode.children, PyNode.tsize, tsizeList]

/-- `ast.walk`: breadth-first traversal yielding every node of the queue's
subtrees, each node before its children. -/
def astWalk : List PyNode → List PyNode
  | [] => []
  | n :: queue => n :: astWalk (queue ++ n.children)
termination_by l => tsizeList l
decreasing_by
  simp only [tsizeList, tsizeList_append]
  have := children_tsize_lt n
  omega

/-- A function entry of `analyze_code_structure`: name, `len(args.args)`,
line number and docstring. -/
structure FunctionInfo where
  name : String
  args : ℕ
  lineno : ℕ
  docstring : Option String
deriving Repr, DecidableEq

/-- A class entry of `analyze_code_structure`: name, line number, docstring. -/
structure ClassInfo where
  name : String
  lineno : ℕ
  docstring : Option String
deriving Repr, DecidableEq

/-- The record returned by `analyze_code_structure`: on success the file,
the function/class/import lists and the line and character counts; on a
syntax error the file, an error message and the raw line count. -/
inductive Analysis where
  | ok : String → List FunctionInfo → List ClassInfo → List String → ℕ → ℕ → Analysis
  | err : String → String → ℕ → Analysis
deriving Repr, DecidableEq

/-- The loop body of `analyze_code_structure` for the functions list. -/
def funEntry : PyNode → Option FunctionInfo
  | .functionDef name args lineno doc _ => some ⟨name, args, lineno, doc⟩
  | _ => none

/-- The loop body of `analyze_code_structure` for the classes list. -/
def classEntry : PyNode → Option ClassInfo
  | .classDef name lineno doc _ => some ⟨name, lineno, doc⟩
  | _ => none

/-- The loop body of `analyze_code_structure` for the imports list: the alias
names of a plain `import`, and `f"{module}.{name}"` with `module or ""` for a
from-import. -/
def importEntries : PyNode → List String
  | .importStmt names => names
  | .importFrom module names => names.map (fun a => module.getD "" ++ "." ++ a)
  | _ => []

/-- `analyze_code_structure` of `ai_code_review.py`.  The Python parser is
the oracle argument `parsed`: `Except.ok body` is the `ast.Module` body
produced by `ast.parse(content)`, `Except.error e` a `SyntaxError` with
message `e`.  On success the script walks all nodes from the module node and
collects functions, classes and imports in walk order; on a syntax error it
returns the degraded error record. -/
def analyze_code_structure (filepath content : String)
    (parsed : Except String (List PyNode)) : Analysis :=
  match parsed with
  | .ok body =>
      let nodes := astWalk [PyNode.other body]
      Analysis.ok filepath
        (nodes.filterMap funEntry)
        (nodes.filterMap classEntry)
        (nodes.flatMap importEntries)
        (pySplitlinesCount content)
        content.length
  | .error e =>
      Analysis.err filepath ("语法错误: " ++ e) (pySplitlinesCount content)

mutual
/-- Independent structural count of `FunctionDef` nodes in a subtree
(async function definitions are a distinct node type and do not count). -/
def PyNode.countFunDefs : PyNode → ℕ
  | .functionDef _ _ _ _ b => 1 + countFunDefsList b
  | .asyncFunctionDef _ _ _ _ b => countFunDefsList b
  | .classDef _ _ _ b => countFunDefsList b
  | .importStmt _ => 0
  | .importFrom _ _ => 0
  | .other b => countFunDefsList b

/-- Independent structural count of `FunctionDef` nodes in a forest. -/
def countFunDefsList : List PyNode → ℕ
  | [] => 0
  | n :: l => n.countFunDefs + countFunDefsList l
end

mutual
/-- Independent structural count of `ClassDef` nodes in a subtree. -/
def PyNode.countClassDefs : PyNode → ℕ
  | .functionDef _ _ _ _ b => countClassDefsList b
  | .asyncFunctionDef _ _ _ _ b => countClassDefsList b
  | .classDef _ _ _ b => 1 + countClassDefsList b
  | .importStmt _ => 0
  | .importFrom _ _ => 0
  | .other b => countClassDefsList b

/-- Independent structural count of `ClassDef` nodes in a forest. -/
def countClassDefsList : List PyNode → ℕ
  | [] => 0
  | n :: l => n.countClassDefs + countClassDefsList l
end

theorem countFunDefsList_append (a b : List PyNode) :
    countFunDefsList (a ++ b) = countFunDefsList a + countFunDefsList b := by
  induction a with
  | nil => simp [countFunDefsList]
  | cons n l ih => simp [countFunDefsList, ih]; ring

theorem countClassDefsList_append (a b : List PyNode) :
    countClassDefsList (a ++ b) = countClassDefsList a + countClassDefsList b := by
  induction a with
  | nil => simp [countClassDefsList]
  | cons n l ih => simp [countClassDefsList, ih]; ring

theorem countFunDefs_split (n : PyNode) :
    n.countFunDefs = (if (funEntry n).isSome then 1 else 0) + countFunDefsList n.children := by
  cases n <;>
    simp [PyNode.countFunDefs, funEntry, PyNode.children, countFunDefsList]

theorem countClassDefs_split (n : PyNode) :
    n.countClassDefs = (if (classEntry n).isSome then 1 else 0) + countClassDefsList n.children := by
  cases n <;>
    simp [PyNode.countClassDefs, classEntry, PyNode.children, countClassDefsList]

theorem astWalk_funEntry_length (l : List PyNode) :
    ((astWalk l).filterMap funEntry).length = countFunDefsList l := by
  induction l using astWalk.induct with
  | case1 => rw [astWalk]; rfl
  | case2 n queue ih =>
      rw [astWalk]
      have hsplit := countFunDefs_split n
      cases h : funEntry n with
      | none =>
          rw [List.filterMap_cons_none h, ih, countFunDefsList_append]
          simp [h] at hsplit
          simp [countFunDefsList, hsplit]
          ring
      | some i =>
          rw [List.filterMap_cons_some h, List.length_cons, ih, countFunDefsList_append]
          simp [h] at hsplit
          simp [countFunDefsList, hsplit]
          ring

theorem astWalk_classEntry_length (l : List PyNode) :
    ((astWalk l).filterMap classEntry).length = countClassDefsList l := by
  induction l using astWalk.induct with
  | case1 => rw [astWalk]; rfl
  | case2 n queue ih =>
      rw [astWalk]
      have hsplit := countClassDefs_split n
      cases h : classEntry n with
      | none =>
          rw [List.filterMap_cons_none h, ih, countClassDefsList_append]
          simp [h] at hsplit
          simp [countClassDefsList, hsplit]
          ring
      | some i =>
          rw [List.filterMap_cons_some h, List.length_cons, ih, countClassDefsList_append]
          simp [h] at hsplit
          simp [countClassDefsList, hsplit]
          ring

/-- The functions list of an analysis record (`analysis.get("functions", [])`,
as read by the aggregation step: an error record has none). -/
def Analysis.functions : Analysis → List FunctionInfo
  | .ok _ fs _ _ _ _ => fs
  | .err _ _ _ => []

/-- The classes list of an analysis record (`analysis.get("classes", [])`). -/
def Analysis.classes : Analysis → List ClassInfo
  | .ok _ _ cs _ _ _ => cs
  | .err _ _ _ => []

/-- The file path carried by an analysis record (both shapes carry one). -/
def Analysis.fileOf : Analysis → String
  | .ok f _ _ _ _ _ => f
  | .err f _ _ => f

/-- The error message of an analysis record: present exactly on the
degraded parse-failure shape. -/
def Analysis.errorMsg : Analysis → Option String
  | .ok _ _ _ _ _ _ => none
  | .err _ e _ => some e

/-- The line count carried by an analysis record (both shapes carry one). -/
def Analysis.line_count : Analysis → ℕ
  | .ok _ _ _ _ lc _ => lc
  | .err _ _ lc => lc

/-- C6: for every file text whose parse fails, `analyze_code_structure`
returns (it is a total function, so the per-file failure cannot abort the
run) a record carrying the file path, an error field `"语法错误: " ++ e`
with the syntax-error message, and a `line_count` equal to the number of
lines of the raw text (`len(content.splitlines())`). -/
theorem analyze_syntax_error_degrades (filepath content e : String) :
    analyze_code_structure filepath content (.error e) =
      .err filepath ("语法错误: " ++ e) (pySplitlinesCount content) ∧
    (analyze_code_structure filepath content (.error e)).fileOf = filepath ∧
    (analyze_code_structure filepath content (.error e)).errorMsg =
      some ("语法错误: " ++ e) ∧
    (analyze_code_structure filepath content (.error e)).line_count =
      pySplitlinesCount content :=
  ⟨rfl, rfl, rfl, rfl⟩

/-- C7: for every file text with valid syntax (the parser returns a module
body), the lengths of the functions and classes lists collected by
`analyze_code_structure`'s walk over all nodes equal the counts of
function-definition and class-definition nodes found by an independent
structural count over the same parse tree. -/
theorem analyze_counts_match_independent (filepath content : String)
    (body : List PyNode) :
    (analyze_code_structure filepath content (.ok body)).functions.length =
      countFunDefsList body ∧
    (analyze_code_structure filepath content (.ok body)).classes.length =
      countClassDefsList body := by
  constructor
  · show ((astWalk [PyNode.other body]).filterMap funEntry).length = _
    rw [astWalk_funEntry_length]
    simp [countFunDefsList, PyNode.countFunDefs]
  · show ((astWalk [PyNode.other body]).filterMap classEntry).length = _
    rw [astWalk_classEntry_length]
    simp [countClassDefsList, PyNode.countClassDefs]

mutual
/-- Python `str()` of a parsed-JSON value (the `str(review)` fallback of the
review scripts): dicts and lists in Python repr notation. -/
def pyStr : JValue → String
  | .jnull => "None"
  | .jbool true => "True"
  | .jbool false => "False"
  | .jnum q => toString q
  | .jstr s => "\x27" ++ s ++ "\x27"
  | .jarr xs => "[" ++ pyStrList xs ++ "]"
  | .jobj fs => "\x7b" ++ pyStrFields fs ++ "\x7d"

/-- Comma-joined rendering of a JSON array's elements. -/
def pyStrList : List JValue → String
  | [] => ""
  | [x] => pyStr x
  | x :: y :: xs => pyStr x ++ ", " ++ pyStrList (y :: xs)

/-- Comma-joined rendering of a JSON object's fields. -/
def pyStrFields : List (String × JValue) → String
  | [] => ""
  | [(k, v)] => "\x27" ++ k ++ "\x27: " ++ pyStr v
  | (k, v) :: y :: xs => "\x27" ++ k ++ "\x27: " ++ pyStr v ++ ", " ++ pyStrFields (y :: xs)
end

/-- The response-text extraction shared by the review scripts: a nonempty
list response yields `review[0].get("generated_text", "")`, a dict response
with a `"generated_text"` key yields that value, anything else falls back to
`str(review)`.  `generated_text` values are strings as produced by the
inference API; a response placing a non-string there (or a non-dict list
head) would make the Python code raise and lies outside the modelled
response space, handled here by the `""` placeholder. -/
def extractGeneratedText (review : JValue) : String :=
  match review with
  | .jarr (first :: _) =>
      (match first with
       | .jobj fs =>
           (match jlookup fs "generated_text" with
            | some (.jstr s) => s
            | _ => "")
       | _ => "")
  | .jobj fs =>
      (match jlookup fs "generated_text" with
       | some (.jstr s) => s
       | some _ => ""
       | none => pyStr (.jobj fs))
  | other => pyStr other

/-- Python's substring test `sub in text` on code points. -/
def pyContains (text sub : String) : Bool := decide (sub.data <:+: text.data)

/-- The review record built by `perform_ai_code_review` of
`ai_code_review.py`. -/
structure ReviewResult where
  file : String
  analysis : Analysis
  review : String
  has_issues : Bool
deriving Repr

/-- `perform_ai_code_review`: extracts the review text from the AI response
(the oracle argument `aiResponse` is the value returned by
`ai_helper.query`) and returns the per-file record, flagging `has_issues`
exactly when the review text contains "⚠️", "❌" or "问题". -/
def perform_ai_code_review (filepath content : String) (analysis : Analysis)
    (aiResponse : JValue) : ReviewResult :=
  let review_text := extractGeneratedText aiResponse
  { file := filepath
    analysis := analysis
    review := review_text
    has_issues := pyContains review_text "⚠️" || pyContains review_text "❌" ||
      pyContains review_text "问题" }

/-- C4: for every file, analysis and AI response, the `has_issues` flag of
the review record is true exactly when its review text contains the warning
glyph "⚠️", the error glyph "❌", or the substring "问题". -/
theorem has_issues_iff_keyword (filepath content : String) (analysis : Analysis)
    (aiResponse : JValue) :
    ((perform_ai_code_review filepath content analysis aiResponse).has_issues = true) ↔
      ("⚠️".data <:+: (perform_ai_code_review filepath content analysis aiResponse).review.data ∨
       "❌".data <:+: (perform_ai_code_review filepath content analysis aiResponse).review.data ∨
       "问题".data <:+: (perform_ai_code_review filepath content analysis aiResponse).review.data) := by
  simp [perform_ai_code_review, pyContains, Bool.or_eq_true, or_assoc]

theorem pyContains_false_iff (text sub : String) :
    pyContains text sub = false ↔ ¬ (sub.data <:+: text.data) := by
  simp [pyContains]

/-- A canonical inference response carrying review text `t` (the
list-of-objects shape returned by the hosted endpoint). -/
def stringResponse (t : String) : JValue :=
  .jarr [.jobj [("generated_text", .jstr t)]]

theorem extract_stringResponse (t : String) :
    extractGeneratedText (stringResponse t) = t := rfl

/-- C5: injecting the problem substring "问题" into an otherwise clean review
text (no "⚠️", "❌" or "问题") flips `has_issues` from false to true while all
other fields of the review record are unchanged: `file` and `analysis` are
identical across the two runs and the `review` field is exactly the injected
text. -/
theorem inject_problem_flips_has_issues (filepath content : String)
    (analysis : Analysis) (a b : String)
    (h1 : ¬ ("⚠️".data <:+: (a ++ b).data))
    (h2 : ¬ ("❌".data <:+: (a ++ b).data))
    (h3 : ¬ ("问题".data <:+: (a ++ b).data)) :
    (perform_ai_code_review filepath content analysis
        (stringResponse (a ++ b))).has_issues = false ∧
    (perform_ai_code_review filepath content analysis
        (stringResponse (a ++ "问题" ++ b))).has_issues = true ∧
    (perform_ai_code_review filepath content analysis
        (stringResponse (a ++ "问题" ++ b))).file =
      (perform_ai_code_review filepath content analysis
        (stringResponse (a ++ b))).file ∧
    (perform_ai_code_review filepath content analysis
        (stringResponse (a ++ "问题" ++ b))).analysis =
      (perform_ai_code_review filepath content analysis
        (stringResponse (a ++ b))).analysis ∧
    (perform_ai_code_review filepath content analysis
        (stringResponse (a ++ "问题" ++ b))).review = a ++ "问题" ++ b := by
  refine ⟨?_, ?_, rfl, rfl, rfl⟩
  · simp [perform_ai_code_review, extract_stringResponse, pyContains]
    refine ⟨⟨?_, ?_⟩, ?_⟩
    · simpa [String.data_append] using h1
    · simpa [String.data_append] using h2
    · simpa [String.data_append] using h3
  · have hinf : ['问', '题'] <:+: a.data ++ '问' :: '题' :: b.data :=
      ⟨a.data, b.data, by simp⟩
    simp [perform_ai_code_review, extract_stringResponse, pyContains]
    exact Or.inr hinf

/-- Witness for C5: instantiated with the clean review text "代码良好。"
split around the injection point. -/
theorem inject_problem_flips_witness :
    (perform_ai_code_review "src/a.py" "x = 1" (.err "src/a.py" "e" 1)
        (stringResponse ("代码" ++ "良好。"))).has_issues = false ∧
    (perform_ai_code_review "src/a.py" "x = 1" (.err "src/a.py" "e" 1)
        (stringResponse ("代码" ++ "问题" ++ "良好。"))).has_issues = true :=
  ⟨(inject_problem_flips_has_issues "src/a.py" "x = 1" (.err "src/a.py" "e" 1)
      "代码" "良好。" (by decide) (by decide) (by decide)).1,
   (inject_problem_flips_has_issues "src/a.py" "x = 1" (.err "src/a.py" "e" 1)
      "代码" "良好。" (by decide) (by decide) (by decide)).2.1⟩

/-- Python's `str.endswith` on code points. -/
def strEndsWith (s suf : String) : Bool := decide (suf.data <:+ s.data)

/-- A filesystem entry: a named directory with its entries in scan order, or
a named plain file. -/
inductive FSEntry where
  | dir : String → List FSEntry → FSEntry
  | file : String → FSEntry

/-- The `os.walk` loop of `find_python_files`: for the current directory,
the names ending in ".py" joined to the current path, followed by the walk
of each subdirectory in scan order (the top-down order of `os.walk`). -/
def walkPyFiles (path : String) (entries : List FSEntry) : List String :=
  (entries.filterMap fun e =>
    match e with
    | .file name => if strEndsWith name ".py" then some (path ++ "/" ++ name) else none
    | .dir _ _ => none) ++
  (entries.attach.flatMap fun ⟨e, _⟩ =>
    match e with
    | .dir name sub => walkPyFiles (path ++ "/" ++ name) sub
    | .file _ => [])
termination_by sizeOf entries
decreasing_by
  rename_i he
  have h := List.sizeOf_lt_of_mem he
  simp at h
  omega

/-- `find_python_files` of `ai_code_review.py`.  The filesystem oracle is
`none` when the directory does not exist (then `os.walk` yields nothing) and
`some entries` with the directory's tree otherwise. -/
def find_python_files (directory : String) (fs : Option (List FSEntry)) : List String :=
  match fs with
  | none => []
  | some entries => walkPyFiles directory entries

/-- Modelled from the spec's words for comparison: all files under a
directory, recursively in directory-walk order, as (directory path, file
name) pairs. -/
def allFilesUnder (path : String) (entries : List FSEntry) : List (String × String) :=
  (entries.filterMap fun e =>
    match e with
    | .file name => some (path, name)
    | .dir _ _ => none) ++
  (entries.attach.flatMap fun ⟨e, _⟩ =>
    match e with
    | .dir name sub => allFilesUnder (path ++ "/" ++ name) sub
    | .file _ => [])
termination_by sizeOf entries
decreasing_by
  rename_i he
  have h := List.sizeOf_lt_of_mem he
  simp at h
  omega

/-- Modelled from the spec's words: exactly the paths of the files under the
directory (recursively, in directory-walk order) whose names end in ".py". -/
def specPyFiles (path : String) (entries : List FSEntry) : List String :=
  (allFilesUnder path entries).filterMap
    (fun pr => if strEndsWith pr.2 ".py" then some (pr.1 ++ "/" ++ pr.2) else none)

theorem filterMap_flatMap_comm {α β γ : Type} (l : List α) (g : α → List β)
    (f : β → Option γ) :
    (l.flatMap g).filterMap f = l.flatMap (fun a => (g a).filterMap f) := by
  induction l with
  | nil => rfl
  | cons a t ih => simp [List.flatMap_cons, List.filterMap_append, ih]

theorem filesPart_eq (path : String) (entries : List FSEntry) :
    (entries.filterMap fun e =>
      match e with
      | .file name => if strEndsWith name ".py" then some (path ++ "/" ++ name) else none
      | .dir _ _ => none) =
    ((entries.filterMap fun e =>
      match e with
      | .file name => some (path, name)
      | .dir _ _ => none).filterMap
        (fun pr => if strEndsWith pr.2 ".py" then some (pr.1 ++ "/" ++ pr.2) else none)) := by
  induction entries with
  | nil => rfl
  | cons e rest ihr =>
      cases e with
      | file name =>
          simp only [List.filterMap_cons]
          by_cases hc : strEndsWith name ".py" = true <;> simp [hc, ihr]
      | dir n s => simpa using ihr

theorem walkPyFiles_eq_spec (path : String) (entries : List FSEntry) :
    walkPyFiles path entries = specPyFiles path entries := by
  induction path, entries using walkPyFiles.induct with
  | _ path entries ih =>
      rw [walkPyFiles, specPyFiles, allFilesUnder, List.filterMap_append]
      congr 1
      · exact filesPart_eq path entries
      · rw [filterMap_flatMap_comm]
        apply congrArg
        funext x
        obtain ⟨e, he⟩ := x
        cases e with
        | dir name sub => exact ih name sub he
        | file name => rfl

/-- C8: `find_python_files` returns the empty list (without raising — it is
a total function) on a nonexistent directory, and on an existing directory
returns exactly the paths of the files under it, recursively in
directory-walk order, whose names end in ".py". -/
theorem find_python_files_spec (directory : String) :
    find_python_files directory none = [] ∧
    ∀ entries, find_python_files directory (some entries) =
      specPyFiles directory entries :=
  ⟨rfl, fun entries => walkPyFiles_eq_spec directory entries⟩
